import Mathlib

/-!
Shallow embedding of the SkillWave backend (Express + Socket.io help-request
marketplace): the HelpRequest lifecycle REST handlers
(`backend/routes/requests.js`), the REST message-send handler
(`backend/routes/messages.js`), and the real-time gateway
(`backend/server.js`: presence maps and the socket event handlers).

MongoDB object ids are modelled as `String`; timestamps as `Nat`; the
database rows relevant to a handler are passed in explicitly (the result of
the `findById` call) and returned updated.
-/

namespace SkillWave

abbrev UserId := String
abbrev RoomId := String

/-- `status` enum of the HelpRequest schema (`models/HelpRequest.js`). -/
inductive Status where
  | open_
  | in_progress
  | completed
  | cancelled
deriving DecidableEq, Repr

/-- The HelpRequest document (`models/HelpRequest.js`).  Fields that no
route ever reads or writes after creation keep their created value. -/
structure HelpRequest where
  requester : UserId
  category : String
  title : String
  description : String
  skillsNeeded : List String
  urgency : String
  estimatedDuration : Option String
  location : Option String
  isRemote : Bool
  budgetMin : Option Int
  budgetMax : Option Int
  status : Status
  helper : Option UserId
  acceptedAt : Option Nat
  completedAt : Option Nat
deriving DecidableEq, Repr

/-- The User document fields the handlers read (`models/User.js`). -/
structure User where
  name : String
  email : String
  picture : String
deriving DecidableEq, Repr

/-- A persisted Message document (`models/Message.js`).  `id` is the
generated `_id`; in this embedding it is the index in the message store at
save time. -/
structure MessageRow where
  id : Nat
  request : RoomId
  sender : UserId
  content : String
  messageType : String
  fileName : Option String
  fileSize : Option Nat
  isRead : Bool
  createdAt : Nat
deriving DecidableEq, Repr

/-- HTTP outcome of a REST handler: the status code and, for errors, the
`error` message of the JSON body. -/
inductive RestResponse where
  | okRequest (r : HelpRequest)
  | createdRequest (r : HelpRequest)
  | createdMessage (m : MessageRow)
  | err (code : Nat) (msg : String)
deriving DecidableEq, Repr

/-- JS `String.prototype.trim`: strip leading and trailing whitespace.
(Executable re-implementation over the character list; core `String.trim`
does not reduce in the kernel.) -/
def jsTrim (s : String) : String :=
  ⟨((s.data.dropWhile Char.isWhitespace).reverse.dropWhile Char.isWhitespace).reverse⟩

/-- JavaScript `x || 'text'`: `undefined` and the empty string are falsy. -/
def orDefault (o : Option String) (d : String) : String :=
  match o with
  | none => d
  | some t => if t = "" then d else t

/-- Request body of `POST /requests`. -/
structure CreateBody where
  title : String
  description : String
  categoryId : String
  skillsNeeded : Option (List String)
  urgency : Option String
  estimatedDuration : Option String
  location : Option String
  isRemote : Option Bool
  budgetMin : Option Int
  budgetMax : Option Int
deriving Repr

/-- `POST /requests` (`routes/requests.js`): after express-validator checks
(title/description nonempty after trim, category id present) and the
category lookup, builds the new HelpRequest with the schema defaults
(`status` defaults to open, `helper`/`acceptedAt`/`completedAt` unset,
`urgency || 'medium'`, `isRemote: isRemote !== false`,
`skillsNeeded || []`).  The creation email is sent inside its own
`try/catch`, so `emailOk` does not affect the result.  Returns the stored
row (if any) and the HTTP response. -/
def createHandler (categories : String → Option String) (caller : UserId)
    (b : CreateBody) (_emailOk : Bool) : Option HelpRequest × RestResponse :=
  if jsTrim b.title = "" ∨ jsTrim b.description = "" then
    (none, .err 400 "Validation failed")
  else
    match categories b.categoryId with
    | none => (none, .err 400 "Invalid category")
    | some _ =>
      let r : HelpRequest :=
        { requester := caller
          category := b.categoryId
          title := b.title
          description := b.description
          skillsNeeded := b.skillsNeeded.getD []
          urgency := orDefault b.urgency "medium"
          estimatedDuration := b.estimatedDuration
          location := b.location
          isRemote := b.isRemote ≠ some false
          budgetMin := b.budgetMin
          budgetMax := b.budgetMax
          status := .open_
          helper := none
          acceptedAt := none
          completedAt := none }
      -- sendEmail failure is caught and only logged, hence unaffected by emailOk
      (some r, .createdRequest r)

/-- `POST /requests/:id/accept` (`routes/requests.js`).  `req?` is the
`HelpRequest.findById` result.  Checks run in source order: not-found,
then `status !== 'open'`, then `requester === caller`.  The two
acceptance emails are inside a `try/catch`, so `emailOk` does not affect
the result. -/
def acceptHandler (req? : Option HelpRequest) (caller : UserId) (now : Nat)
    (_emailOk : Bool) : Option HelpRequest × RestResponse :=
  match req? with
  | none => (none, .err 404 "Request not found")
  | some r =>
    if r.status ≠ .open_ then
      (some r, .err 400 "Request is not available")
    else if r.requester = caller then
      (some r, .err 400 "Cannot accept your own request")
    else
      let r' := { r with helper := some caller
                         status := .in_progress
                         acceptedAt := some now }
      (some r', .okRequest r')

/-- `POST /requests/:id/complete` (`routes/requests.js`).  Checks run in
source order: not-found, then `status !== 'in_progress'`, then
`helper.toString() !== caller`.  If `helper` were unset here the JS
`helper.toString()` would throw a TypeError, landing in the catch-all
500.  The completion emails are inside a `try/catch`. -/
def completeHandler (req? : Option HelpRequest) (caller : UserId) (now : Nat)
    (_emailOk : Bool) : Option HelpRequest × RestResponse :=
  match req? with
  | none => (none, .err 404 "Request not found")
  | some r =>
    if r.status ≠ .in_progress then
      (some r, .err 400 "Request is not in progress")
    else
      match r.helper with
      | none => (some r, .err 500 "Failed to complete request")
      | some h =>
        if h ≠ caller then
          (some r, .err 403 "Only the helper can complete this request")
        else
          let r' := { r with status := .completed, completedAt := some now }
          (some r', .okRequest r')

/-- `POST /messages` (`routes/messages.js`).  `req?` is the request row,
`users` the User store, `msgs` the message store (new rows are appended;
a row's `_id` is its index at save time).  Source order: validation,
request lookup, authorization (requester or helper), sender lookup, save,
then recipient lookup and `sendEmail`.  The email call is NOT wrapped in
its own `try/catch`: a failure propagates to the outer catch, which
answers 500 — but the message row has already been saved and is not
rolled back. -/
def postMessageHandler (req? : Option HelpRequest) (users : UserId → Option User)
    (msgs : List MessageRow) (caller : UserId) (requestId : RoomId)
    (content : String) (messageType : Option String) (fileName : Option String)
    (fileSize : Option Nat) (now : Nat) (emailOk : Bool) :
    List MessageRow × RestResponse :=
  if jsTrim content = "" then
    (msgs, .err 400 "Validation failed")
  else
    match req? with
    | none => (msgs, .err 404 "Request not found")
    | some r =>
      if r.requester ≠ caller ∧ r.helper ≠ some caller then
        (msgs, .err 403 "Not authorized to send messages")
      else
        match users caller with
        | none => (msgs, .err 404 "User not found")
        | some _u =>
          let row : MessageRow :=
            { id := msgs.length
              request := requestId
              sender := caller
              content := content
              messageType := orDefault messageType "text"
              fileName := fileName
              fileSize := fileSize
              isRead := false
              createdAt := now }
          let msgs' := msgs ++ [row]
          let recipient : Option User :=
            if r.requester = caller then
              match r.helper with
              | none => none
              | some h => users h
            else users r.requester
          match recipient with
          | some rec =>
            if rec.email ≠ "" ∧ ¬ emailOk then
              -- sendEmail rejected: outer catch answers 500; row stays saved
              (msgs', .err 500 "Failed to send message")
            else
              (msgs', .createdMessage row)
          | none => (msgs', .createdMessage row)

/-- The documented HelpRequest invariant (§3 / §8 of the spec):
status=open ⇒ helper unset; status ∈ {in_progress, completed} ⇒ helper
set; completedAt set ⇒ status=completed. -/
def statusHelperInv (r : HelpRequest) : Prop :=
  (r.status = .open_ → r.helper = none) ∧
  (r.status = .in_progress ∨ r.status = .completed → r.helper ≠ none) ∧
  (r.completedAt ≠ none → r.status = .completed)

instance (r : HelpRequest) : Decidable (statusHelperInv r) := by
  unfold statusHelperInv; infer_instance

/-- HelpRequest rows reachable through the create/accept/complete
endpoints. -/
inductive ReachableReq : HelpRequest → Prop where
  | created (categories : String → Option String) (caller : UserId)
      (b : CreateBody) (emailOk : Bool) (r : HelpRequest)
      (h : (createHandler categories caller b emailOk).1 = some r) :
      ReachableReq r
  | accepted (r : HelpRequest) (caller : UserId) (now : Nat) (emailOk : Bool)
      (r' : HelpRequest) (hr : ReachableReq r)
      (h : (acceptHandler (some r) caller now emailOk).1 = some r') :
      ReachableReq r'
  | completed_ (r : HelpRequest) (caller : UserId) (now : Nat) (emailOk : Bool)
      (r' : HelpRequest) (hr : ReachableReq r)
      (h : (completeHandler (some r) caller now emailOk).1 = some r') :
      ReachableReq r'

/-! ## Real-time gateway (`backend/server.js`)

Presence maps: `connectedUsers : Map userId → socket`,
`userRooms : Map userId → Set roomId`, `roomUsers : Map roomId → Set userId`.
JS `Map`/`Set` are modelled as functions into `Option` / duplicate-free
insertion-ordered lists.  `socketRooms` is the socket.io adapter state:
which sockets have joined each room (the target set of `io.to(room)`). -/

abbrev SocketId := Nat

/-- JS `Set.add`: appends if not already present (insertion order kept). -/
def setAdd {α : Type} [DecidableEq α] (a : α) (l : List α) : List α :=
  if a ∈ l then l else l ++ [a]

/-- JS `Set.delete`. -/
def setDel {α : Type} [DecidableEq α] (a : α) (l : List α) : List α :=
  l.filter (fun x => x ≠ a)

/-- Pointwise update of a map-as-function (JS `Map.set` / `Map.delete`). -/
def fupd {α β : Type} [DecidableEq α] (f : α → β) (a : α) (b : β) : α → β :=
  fun x => if x = a then b else f x

/-- In-memory gateway state (`server.js` lines 167-170 plus the socket.io
adapter rooms and the persisted message store). -/
structure GState where
  connectedUsers : UserId → Option SocketId
  userRooms : UserId → Option (List RoomId)
  roomUsers : RoomId → Option (List UserId)
  socketRooms : RoomId → List SocketId
  messages : List MessageRow

/-- The `message` payload broadcast by `send_message`: the in-handler
object plus the `_id` of the saved row. -/
structure MsgPayload where
  id : Nat
  requestId : RoomId
  senderId : UserId
  senderName : String
  senderPicture : String
  content : String
  messageType : String
  fileName : Option String
  fileSize : Option Nat
  createdAt : Nat
  isRead : Bool
deriving DecidableEq, Repr

/-- Server→client events emitted by the gateway handlers. -/
inductive Out where
  | message (m : MsgPayload)
  | notification (requestId : RoomId) (text : String) (senderName : String) (ts : Nat)
  | errorMsg (text : String)
  | userJoined (requestId : RoomId) (uid : UserId) (ts : Nat)
  | userLeft (requestId : RoomId) (uid : UserId) (ts : Nat)
  | typing (requestId : RoomId) (uid : UserId) (userName : String) (isTyping : Bool) (ts : Nat)
deriving DecidableEq, Repr

/-- `io.on('connection')`: stores the socket under its userId (overwriting
any prior entry) and creates an empty room set if the user has none. -/
def onConnect (s : GState) (sock : SocketId) (uid : UserId) : GState :=
  { s with connectedUsers := fupd s.connectedUsers uid (some sock)
           userRooms :=
             match s.userRooms uid with
             | some _ => s.userRooms
             | none => fupd s.userRooms uid (some []) }

/-- `join_room` handler.  Source order: `HelpRequest.findById` (silent
return if missing), requester/helper check (silent return), `socket.join`,
`userRooms.get(userId).add(requestId)` — which throws a TypeError caught
by the surrounding `try` when the supplied userId has no entry —
`roomUsers` update, then `socket.to(requestId).emit('user_joined_room')`. -/
def joinRoomStep (db : RoomId → Option HelpRequest) (s : GState)
    (sock : SocketId) (requestId : RoomId) (uid : UserId) (now : Nat) :
    GState × List (SocketId × Out) :=
  match db requestId with
  | none => (s, [])
  | some req =>
    if ¬ (req.requester = uid ∨ req.helper = some uid) then (s, [])
    else
      let sr := fupd s.socketRooms requestId (setAdd sock (s.socketRooms requestId))
      match s.userRooms uid with
      | none => ({ s with socketRooms := sr }, [])
      | some rooms =>
        let s' : GState :=
          { s with
            socketRooms := sr
            userRooms := fupd s.userRooms uid (some (setAdd requestId rooms))
            roomUsers := fupd s.roomUsers requestId
              (some (setAdd uid ((s.roomUsers requestId).getD []))) }
        let targets := (sr requestId).filter (fun k => k ≠ sock)
        (s', targets.map (fun k => (k, Out.userJoined requestId uid now)))

/-- `leave_room` handler: `socket.leave`, then guarded deletions from both
presence maps (room entry removed once its member set is empty), then
`socket.to(requestId).emit('user_left_room')`. -/
def leaveRoomStep (s : GState) (sock : SocketId) (requestId : RoomId)
    (uid : UserId) (now : Nat) : GState × List (SocketId × Out) :=
  let sr := fupd s.socketRooms requestId (setDel sock (s.socketRooms requestId))
  let ur := match s.userRooms uid with
            | none => s.userRooms
            | some rooms => fupd s.userRooms uid (some (setDel requestId rooms))
  let ru := match s.roomUsers requestId with
            | none => s.roomUsers
            | some us =>
              let us' := setDel uid us
              fupd s.roomUsers requestId (if us' = [] then none else some us')
  let targets := (sr requestId).filter (fun k => k ≠ sock)
  ({ s with socketRooms := sr, userRooms := ur, roomUsers := ru },
   targets.map (fun k => (k, Out.userLeft requestId uid now)))

/-- The Message row saved by the `send_message` handler; its generated
`_id` is the store index at save time. -/
def savedRowOf (s : GState) (senderId : UserId) (requestId : RoomId)
    (content : String) (messageType : Option String) (fileName : Option String)
    (fileSize : Option Nat) (now : Nat) : MessageRow :=
  { id := s.messages.length
    request := requestId
    sender := senderId
    content := content
    messageType := orDefault messageType "text"
    fileName := fileName
    fileSize := fileSize
    isRead := false
    createdAt := now }

/-- The `message` object broadcast by `send_message` after `_id` is
attached from the saved row. -/
def payloadOf (u : User) (s : GState) (senderId : UserId) (requestId : RoomId)
    (content : String) (messageType : Option String) (fileName : Option String)
    (fileSize : Option Nat) (now : Nat) : MsgPayload :=
  { id := s.messages.length
    requestId := requestId
    senderId := senderId
    senderName := u.name
    senderPicture := u.picture
    content := content
    messageType := orDefault messageType "text"
    fileName := fileName
    fileSize := fileSize
    createdAt := now
    isRead := false }

/-- `send_message` handler.  `senderId` is `socket.userId`.  Source order:
`User.findById` (silent return if missing), build payload, save the row
(`saveFails` models a rejected `newMessage.save()`; the catch emits
`error` to the sending socket only), attach the generated `_id`,
`io.to(requestId).emit('message', ...)` to the room's socket group, then
one `notification` per *other* member of `roomUsers.get(requestId)` that
has an entry in `connectedUsers`. -/
def sendMessageStep (users : UserId → Option User) (s : GState)
    (sock : SocketId) (senderId : UserId) (requestId : RoomId)
    (content : String) (messageType : Option String) (fileName : Option String)
    (fileSize : Option Nat) (saveFails : Bool) (now : Nat) :
    GState × List (SocketId × Out) :=
  match users senderId with
  | none => (s, [])
  | some u =>
    if saveFails then
      (s, [(sock, Out.errorMsg "Failed to send message")])
    else
      let row := savedRowOf s senderId requestId content messageType fileName fileSize now
      let payload := payloadOf u s senderId requestId content messageType fileName fileSize now
      let s' := { s with messages := s.messages ++ [row] }
      let broadcast := (s.socketRooms requestId).map (fun k => (k, Out.message payload))
      let notifs := ((s.roomUsers requestId).getD []).filterMap (fun v =>
        if v ≠ senderId then
          match s.connectedUsers v with
          | some ks =>
            some (ks, Out.notification requestId ("New message from " ++ u.name) u.name now)
          | none => none
        else none)
      (s', broadcast ++ notifs)

/-- `typing` handler: relayed to the other sockets of the room, no state
change. -/
def typingStep (s : GState) (sock : SocketId) (requestId : RoomId)
    (uid : UserId) (userName : String) (isTyping : Bool) (now : Nat) :
    GState × List (SocketId × Out) :=
  (s, ((s.socketRooms requestId).filter (fun k => k ≠ sock)).map
    (fun k => (k, Out.typing requestId uid userName isTyping now)))

/-- `disconnect` handler.  `uid` is `socket.userId`.  Deletes the
`connectedUsers` entry unconditionally; then for each room of
`userRooms.get(uid)` (if any): removes `uid` from the room's member set
(deleting the entry once empty) and emits `user_left_room` to the
remaining sockets of the room; finally deletes the `userRooms` entry.
The socket.io adapter drops the socket from every room on disconnect. -/
def disconnectStep (s : GState) (sock : SocketId) (uid : UserId) (now : Nat) :
    GState × List (SocketId × Out) :=
  let cu := fupd s.connectedUsers uid none
  let sr := fun r => setDel sock (s.socketRooms r)
  match s.userRooms uid with
  | none => ({ s with connectedUsers := cu, socketRooms := sr }, [])
  | some rooms =>
    let ru := fun r =>
      if r ∈ rooms then
        match s.roomUsers r with
        | none => none
        | some us =>
          let us' := setDel uid us
          if us' = [] then none else some us'
      else s.roomUsers r
    let outs := rooms.flatMap (fun r =>
      ((s.socketRooms r).filter (fun k => k ≠ sock)).map
        (fun k => (k, Out.userLeft r uid now)))
    ({ s with connectedUsers := cu
              userRooms := fupd s.userRooms uid none
              roomUsers := ru
              socketRooms := sr }, outs)

/-- Client→server gateway events.  `uid` on join/leave is the
client-supplied payload userId; `sockUid` is the connection's own
`socket.userId`. -/
inductive GEvent where
  | connect (sock : SocketId) (uid : UserId)
  | joinRoom (sock : SocketId) (requestId : RoomId) (uid : UserId)
  | leaveRoom (sock : SocketId) (requestId : RoomId) (uid : UserId)
  | sendMessage (sock : SocketId) (sockUid : UserId) (requestId : RoomId)
      (content : String) (messageType : Option String)
      (fileName : Option String) (fileSize : Option Nat) (saveFails : Bool)
  | typing (sock : SocketId) (requestId : RoomId) (uid : UserId)
      (userName : String) (isTyping : Bool)
  | disconnect (sock : SocketId) (sockUid : UserId)

/-- One gateway event handled to completion (the handlers only mutate the
maps after their single database await, so each runs atomically with
respect to the maps). -/
def gstep (db : RoomId → Option HelpRequest) (users : UserId → Option User)
    (now : Nat) (s : GState) : GEvent → GState × List (SocketId × Out)
  | .connect sock uid => (onConnect s sock uid, [])
  | .joinRoom sock requestId uid => joinRoomStep db s sock requestId uid now
  | .leaveRoom sock requestId uid => leaveRoomStep s sock requestId uid now
  | .sendMessage sock sockUid requestId content mt fn fs fail =>
      sendMessageStep users s sock sockUid requestId content mt fn fs fail now
  | .typing sock requestId uid userName isTyping =>
      typingStep s sock requestId uid userName isTyping now
  | .disconnect sock sockUid => disconnectStep s sock sockUid now

/-- Gateway state at process start: empty maps, no messages. -/
def initState : GState :=
  { connectedUsers := fun _ => none
    userRooms := fun _ => none
    roomUsers := fun _ => none
    socketRooms := fun _ => []
    messages := [] }

/-- Run a sequence of events from `s`, the clock ticking once per event. -/
def grunFrom (db : RoomId → Option HelpRequest) (users : UserId → Option User)
    (now : Nat) (s : GState) : List GEvent → GState
  | [] => s
  | e :: es => grunFrom db users (now + 1) (gstep db users now s e).1 es

/-- Run a sequence of events from process start. -/
def grun (db : RoomId → Option HelpRequest) (users : UserId → Option User)
    (es : List GEvent) : GState :=
  grunFrom db users 0 initState es

/-- Membership in an optional set (a JS `Map` of `Set`s: a missing entry
holds nothing). -/
def memOpt {α : Type} (a : α) (o : Option (List α)) : Prop :=
  match o with
  | some l => a ∈ l
  | none => False

instance {α : Type} [DecidableEq α] (a : α) (o : Option (List α)) :
    Decidable (memOpt a o) := by
  unfold memOpt; split <;> infer_instance

/-- The presence-map invariant: `userRooms` and `roomUsers` mirror each
other, and `roomUsers` holds no empty member set. -/
def presenceInv (s : GState) : Prop :=
  (∀ u r, memOpt r (s.userRooms u) ↔ memOpt u (s.roomUsers r)) ∧
  (∀ r, s.roomUsers r ≠ some [])

/-! ## Concrete fixtures used by counterexamples and witnesses -/

/-- Category store with one seeded category. -/
def cats1 : String → Option String :=
  fun c => if c = "cat-math" then some "Mathematics" else none

/-- A valid `POST /requests` body. -/
def bodyA : CreateBody :=
  { title := "Help with recursion"
    description := "Stuck on base cases"
    categoryId := "cat-math"
    skillsNeeded := none
    urgency := none
    estimatedDuration := none
    location := none
    isRemote := none
    budgetMin := none
    budgetMax := none }

/-- Fallback row for `Option.getD` (never the value actually used below). -/
def dummyReq : HelpRequest :=
  { requester := ""
    category := ""
    title := ""
    description := ""
    skillsNeeded := []
    urgency := ""
    estimatedDuration := none
    location := none
    isRemote := true
    budgetMin := none
    budgetMax := none
    status := .open_
    helper := none
    acceptedAt := none
    completedAt := none }

/-- The request userA creates through `POST /requests`. -/
def reqOpenA : HelpRequest :=
  ((createHandler cats1 "userA" bodyA true).1).getD dummyReq

/-- `reqOpenA` after userB accepts it through `POST /requests/:id/accept`
at time 3 (status in_progress, helper userB). -/
def reqInProgressAB : HelpRequest :=
  ((acceptHandler (some reqOpenA) "userB" 3 true).1).getD dummyReq

/-- The requester's user record. -/
def uAlice : User := { name := "Alice", email := "alice@example.com", picture := "picA" }

/-- The helper's user record. -/
def uBob : User := { name := "Bob", email := "bob@example.com", picture := "picB" }

/-- User store with the two participants. -/
def users1 : UserId → Option User :=
  fun v =>
    if v = "userA" then some uAlice
    else if v = "userB" then some uBob
    else none

/-- Request store holding the accepted request under id `req1`. -/
def db1 : RoomId → Option HelpRequest :=
  fun r => if r = "req1" then some reqInProgressAB else none

/-- Gateway state after both participants connect and join the chat room:
socket 1 is userA, socket 2 is userB. -/
def sBoth : GState :=
  grun db1 users1
    [.connect 1 "userA", .joinRoom 1 "req1" "userA",
     .connect 2 "userB", .joinRoom 2 "req1" "userB"]

/-- Gateway state after an unrelated user connects on socket 7.  The
participants of req1 never connected, so they have no userRooms entries. -/
def sMallory : GState := grun db1 users1 [.connect 7 "mallory"]

/-- Gateway state after both participants connect but only userA has
joined the chat room. -/
def sW2 : GState :=
  grun db1 users1 [.connect 1 "userA", .connect 2 "userB", .joinRoom 1 "req1" "userA"]

/-- Gateway state after userA connects on socket 1, joins the chat room,
and then opens a second connection on socket 2 (which overwrites the
`connectedUsers` entry; socket 1 is never closed by the server). -/
def sTwoConn : GState :=
  grun db1 users1 [.connect 1 "userA", .joinRoom 1 "req1" "userA", .connect 2 "userA"]

/-! ## Shared lemmas -/

theorem mem_setAdd {α : Type} [DecidableEq α] {a b : α} {l : List α} :
    a ∈ setAdd b l ↔ a = b ∨ a ∈ l := by
  unfold setAdd
  split
  next h =>
    constructor
    · exact Or.inr
    · rintro (rfl | ha)
      · exact h
      · exact ha
  next h => simp [List.mem_append, or_comm]

theorem mem_setDel {α : Type} [DecidableEq α] {a b : α} {l : List α} :
    a ∈ setDel b l ↔ a ∈ l ∧ a ≠ b := by
  simp [setDel]

theorem setAdd_ne_nil {α : Type} [DecidableEq α] (a : α) (l : List α) :
    setAdd a l ≠ [] := by
  unfold setAdd
  split
  next h => intro hl; subst hl; simp at h
  next h => simp

@[simp] theorem memOpt_none {α : Type} (a : α) : ¬ memOpt a (none : Option (List α)) :=
  fun h => h

@[simp] theorem memOpt_some {α : Type} (a : α) (l : List α) : memOpt a (some l) ↔ a ∈ l :=
  Iff.rfl

@[simp] theorem fupd_apply {α β : Type} [DecidableEq α] (f : α → β) (a : α) (b : β) (x : α) :
    fupd f a b x = if x = a then b else f x := rfl

theorem fst_ite_pair {α β : Type} (c : Prop) [Decidable c] (x : α) (a b : β) :
    (if c then (x, a) else (x, b)).1 = x := by
  split <;> rfl

/-! ## Claim theorems -/

/-- C2 (counterexample): the claim says accept "fails with SelfAcceptError
when the caller is the requester", but the status check runs first: userA
accepting their own already-accepted request gets the InvalidStateError
response ("Request is not available", 400), not the SelfAcceptError
response ("Cannot accept your own request"). -/
theorem c2_accept_error_order_counterexample :
    reqInProgressAB.requester = "userA" ∧
    reqInProgressAB.status ≠ .open_ ∧
    (acceptHandler (some reqInProgressAB) "userA" 7 true).2 =
      .err 400 "Request is not available" ∧
    (acceptHandler (some reqInProgressAB) "userA" 7 true).2 ≠
      .err 400 "Cannot accept your own request" := by
  decide

/-- C2 (amended): accept on an existing request succeeds iff status=open
and the caller is not the requester, in which case helper:=caller,
status:=in_progress, acceptedAt:=now; it fails with InvalidStateError
("Request is not available") whenever status≠open, and with
SelfAcceptError ("Cannot accept your own request") when status=open and
the caller is the requester (the status check runs first). -/
theorem c2_accept_characterization (r : HelpRequest) (caller : UserId) (now : Nat)
    (emailOk : Bool) :
    ((∃ r', (acceptHandler (some r) caller now emailOk).2 = .okRequest r') ↔
      (r.status = .open_ ∧ r.requester ≠ caller)) ∧
    (r.status = .open_ → r.requester ≠ caller →
      (acceptHandler (some r) caller now emailOk).1 =
        some { r with helper := some caller, status := .in_progress, acceptedAt := some now } ∧
      (acceptHandler (some r) caller now emailOk).2 =
        .okRequest { r with helper := some caller, status := .in_progress,
                            acceptedAt := some now }) ∧
    (r.status ≠ .open_ →
      (acceptHandler (some r) caller now emailOk).2 = .err 400 "Request is not available" ∧
      (acceptHandler (some r) caller now emailOk).1 = some r) ∧
    (r.status = .open_ → r.requester = caller →
      (acceptHandler (some r) caller now emailOk).2 = .err 400 "Cannot accept your own request" ∧
      (acceptHandler (some r) caller now emailOk).1 = some r) := by
  unfold acceptHandler
  by_cases h1 : r.status = .open_ <;> by_cases h2 : r.requester = caller <;> simp [h1, h2]

/-- Witness for C2: userB accepting userA's open request at time 3 yields
the in_progress row with helper userB. -/
theorem c2_accept_characterization_witness :
    (acceptHandler (some reqOpenA) "userB" 3 true).1 =
      some { reqOpenA with helper := some "userB", status := .in_progress,
                           acceptedAt := some 3 } ∧
    (acceptHandler (some reqOpenA) "userB" 3 true).2 =
      .okRequest { reqOpenA with helper := some "userB", status := .in_progress,
                                 acceptedAt := some 3 } :=
  (c2_accept_characterization reqOpenA "userB" 3 true).2.1 (by decide) (by decide)

/-- C3 (counterexample): the claim says complete "fails with ForbiddenError
when the caller is not the helper", but the status check runs first:
userB (not the helper — the open request has none) completing an open
request gets the InvalidStateError response ("Request is not in
progress", 400), not the 403 ForbiddenError response. -/
theorem c3_complete_error_order_counterexample :
    reqOpenA.helper ≠ some "userB" ∧
    (completeHandler (some reqOpenA) "userB" 9 true).2 =
      .err 400 "Request is not in progress" ∧
    (completeHandler (some reqOpenA) "userB" 9 true).2 ≠
      .err 403 "Only the helper can complete this request" := by
  decide

/-- C3 (amended): complete on an existing request satisfying the lifecycle
invariant succeeds iff status=in_progress and the caller is the helper,
in which case status:=completed and completedAt:=now; it fails with
InvalidStateError ("Request is not in progress") whenever
status≠in_progress, and with ForbiddenError (403) when
status=in_progress and the caller is not the helper (the status check
runs first). -/
theorem c3_complete_characterization (r : HelpRequest) (caller : UserId) (now : Nat)
    (emailOk : Bool) (hInv : statusHelperInv r) :
    ((∃ r', (completeHandler (some r) caller now emailOk).2 = .okRequest r') ↔
      (r.status = .in_progress ∧ r.helper = some caller)) ∧
    (r.status = .in_progress → r.helper = some caller →
      (completeHandler (some r) caller now emailOk).1 =
        some { r with status := .completed, completedAt := some now } ∧
      (completeHandler (some r) caller now emailOk).2 =
        .okRequest { r with status := .completed, completedAt := some now }) ∧
    (r.status ≠ .in_progress →
      (completeHandler (some r) caller now emailOk).2 = .err 400 "Request is not in progress" ∧
      (completeHandler (some r) caller now emailOk).1 = some r) ∧
    (r.status = .in_progress → r.helper ≠ some caller →
      (completeHandler (some r) caller now emailOk).2 =
        .err 403 "Only the helper can complete this request" ∧
      (completeHandler (some r) caller now emailOk).1 = some r) := by
  unfold completeHandler
  by_cases h1 : r.status = .in_progress
  · obtain ⟨-, h2, -⟩ := hInv
    cases hh : r.helper with
    | none => exact absurd hh (h2 (Or.inl h1))
    | some hv => by_cases h3 : hv = caller <;> simp [h1, hh, h3]
  · simp [h1]

/-- Witness for C3: the helper userB completing the accepted request at
time 9 yields the completed row. -/
theorem c3_complete_characterization_witness :
    (completeHandler (some reqInProgressAB) "userB" 9 true).1 =
      some { reqInProgressAB with status := .completed, completedAt := some 9 } ∧
    (completeHandler (some reqInProgressAB) "userB" 9 true).2 =
      .okRequest { reqInProgressAB with status := .completed, completedAt := some 9 } :=
  (c3_complete_characterization reqInProgressAB "userB" 9 true (by decide)).2.1
    (by decide) (by decide)

/-- C4: every HelpRequest reachable through the create/accept/complete
endpoints satisfies the lifecycle invariant: status=open ⇒ helper unset;
status ∈ {in_progress, completed} ⇒ helper set; completedAt set ⇒
status=completed. -/
theorem c4_lifecycle_invariant (r : HelpRequest) (h : ReachableReq r) :
    statusHelperInv r := by
  induction h with
  | created categories caller b emailOk r h =>
    by_cases h1 : jsTrim b.title = "" ∨ jsTrim b.description = ""
    · simp [createHandler, h1] at h
    · cases hc : categories b.categoryId with
      | none => simp [createHandler, h1, hc] at h
      | some cat =>
        simp [createHandler, h1, hc] at h
        subst h
        exact ⟨fun _ => rfl, fun hc2 => by simp at hc2, fun hc2 => by simp at hc2⟩
  | accepted r caller now emailOk r' hr h ih =>
    by_cases h1 : r.status = .open_
    · by_cases h2 : r.requester = caller
      · simp [acceptHandler, h1, h2] at h; subst h; exact ih
      · simp [acceptHandler, h1, h2] at h
        subst h
        obtain ⟨-, -, i3⟩ := ih
        refine ⟨fun hc => by simp at hc, fun _ => by simp, fun hc => ?_⟩
        exfalso
        have hcomp := i3 hc
        rw [h1] at hcomp
        exact absurd hcomp (by decide)
    · simp [acceptHandler, h1] at h; subst h; exact ih
  | completed_ r caller now emailOk r' hr h ih =>
    by_cases h1 : r.status = .in_progress
    · cases hh : r.helper with
      | none => simp [completeHandler, h1, hh] at h; subst h; exact ih
      | some hv =>
        by_cases h3 : hv = caller
        · simp [completeHandler, h1, hh, h3] at h
          subst h
          exact ⟨fun hc => by simp at hc, fun _ => by simp [hh], fun _ => rfl⟩
        · simp [completeHandler, h1, hh, h3] at h; subst h; exact ih
    · simp [completeHandler, h1] at h; subst h; exact ih

/-- Witness for C4: the concrete accepted request built through the create
and accept handlers satisfies the invariant. -/
theorem c4_lifecycle_invariant_witness : statusHelperInv reqInProgressAB :=
  c4_lifecycle_invariant reqInProgressAB
    (ReachableReq.accepted reqOpenA "userB" 3 true reqInProgressAB
      (ReachableReq.created cats1 "userA" bodyA true reqOpenA (by decide))
      (by decide))

/-- C8 (counterexample): the claim says an email failure "is never
propagated to the caller as an error response", but `POST /messages`
does not wrap `sendEmail` in its own try/catch: with the email failing,
userA's message send on the accepted request answers 500
"Failed to send message" (while the same call with email working answers
201) — even though the message row was persisted either way. -/
theorem c8_email_propagation_counterexample :
    (postMessageHandler (some reqInProgressAB) users1 [] "userA" "req1" "hello"
        none none none 5 false).2 = .err 500 "Failed to send message" ∧
    (postMessageHandler (some reqInProgressAB) users1 [] "userA" "req1" "hello"
        none none none 5 true).2 =
      .createdMessage
        { id := 0, request := "req1", sender := "userA", content := "hello",
          messageType := "text", fileName := none, fileSize := none,
          isRead := false, createdAt := 5 } ∧
    (postMessageHandler (some reqInProgressAB) users1 [] "userA" "req1" "hello"
        none none none 5 false).1 =
      [{ id := 0, request := "req1", sender := "userA", content := "hello",
         messageType := "text", fileName := none, fileSize := none,
         isRead := false, createdAt := 5 }] := by
  decide

/-- C8 (amended): for request create, accept and complete the email is
sent inside its own try/catch, so an email failure changes neither the
response nor the saved state; for the REST message send an email failure
does not roll back the persisted message (the stored rows are identical
whether the email succeeds or fails), but it IS propagated to the caller
as a 500 error response (see the counterexample). -/
theorem c8_email_best_effort (categories : String → Option String) (caller : UserId)
    (b : CreateBody) (req? : Option HelpRequest) (now : Nat)
    (users : UserId → Option User) (msgs : List MessageRow) (requestId : RoomId)
    (content : String) (messageType : Option String) (fileName : Option String)
    (fileSize : Option Nat) (e₁ e₂ : Bool) :
    createHandler categories caller b e₁ = createHandler categories caller b e₂ ∧
    acceptHandler req? caller now e₁ = acceptHandler req? caller now e₂ ∧
    completeHandler req? caller now e₁ = completeHandler req? caller now e₂ ∧
    (postMessageHandler req? users msgs caller requestId content messageType
        fileName fileSize now e₁).1 =
      (postMessageHandler req? users msgs caller requestId content messageType
        fileName fileSize now e₂).1 := by
  refine ⟨rfl, rfl, rfl, ?_⟩
  unfold postMessageHandler
  repeat' split
  all_goals simp only [fst_ite_pair]
  all_goals (repeat' split)
  all_goals simp [fst_ite_pair]

/-! ## Presence-invariant machinery (C9) -/

theorem presenceInv_congr {s t : GState} (hu : t.userRooms = s.userRooms)
    (hr : t.roomUsers = s.roomUsers) (h : presenceInv s) : presenceInv t := by
  unfold presenceInv at *
  rw [hu, hr]
  exact h

theorem presenceInv_initState : presenceInv initState := by
  constructor
  · intro u r
    simp [initState]
  · intro r
    simp [initState]

theorem presenceInv_onConnect (s : GState) (sock : SocketId) (uid : UserId)
    (h : presenceInv s) : presenceInv (onConnect s sock uid) := by
  obtain ⟨h1, h2⟩ := h
  cases hur : s.userRooms uid with
  | some l =>
    refine presenceInv_congr ?_ ?_ ⟨h1, h2⟩ <;> simp [onConnect, hur]
  | none =>
    constructor
    · intro u r
      by_cases hu : u = uid
      · subst hu
        have hFalse : ¬ memOpt u (s.roomUsers r) := by
          intro hm
          have hm' := (h1 u r).mpr hm
          rw [hur] at hm'
          exact hm'
        simp [onConnect, hur, hFalse]
      · simp only [onConnect, hur, fupd_apply, if_neg hu]
        exact h1 u r
    · intro r
      exact h2 r

theorem joinRoomStep_not_found (db : RoomId → Option HelpRequest) (s : GState)
    (sock : SocketId) (requestId : RoomId) (uid : UserId) (now : Nat)
    (hdb : db requestId = none) :
    joinRoomStep db s sock requestId uid now = (s, []) := by
  simp [joinRoomStep, hdb]

theorem joinRoomStep_unauthorized (db : RoomId → Option HelpRequest) (s : GState)
    (sock : SocketId) (requestId : RoomId) (uid : UserId) (now : Nat)
    (req : HelpRequest) (hdb : db requestId = some req)
    (hauth : ¬ (req.requester = uid ∨ req.helper = some uid)) :
    joinRoomStep db s sock requestId uid now = (s, []) := by
  simp [joinRoomStep, hdb, hauth]

theorem joinRoomStep_no_entry (db : RoomId → Option HelpRequest) (s : GState)
    (sock : SocketId) (requestId : RoomId) (uid : UserId) (now : Nat)
    (req : HelpRequest) (hdb : db requestId = some req)
    (hauth : req.requester = uid ∨ req.helper = some uid)
    (hur : s.userRooms uid = none) :
    joinRoomStep db s sock requestId uid now =
      ({ s with
          socketRooms := fupd s.socketRooms requestId
            (setAdd sock (s.socketRooms requestId)) }, []) := by
  simp [joinRoomStep, hdb, hauth, hur]

theorem joinRoomStep_success (db : RoomId → Option HelpRequest) (s : GState)
    (sock : SocketId) (requestId : RoomId) (uid : UserId) (now : Nat)
    (req : HelpRequest) (rooms : List RoomId) (hdb : db requestId = some req)
    (hauth : req.requester = uid ∨ req.helper = some uid)
    (hur : s.userRooms uid = some rooms) :
    joinRoomStep db s sock requestId uid now =
      ({ s with
          socketRooms := fupd s.socketRooms requestId
            (setAdd sock (s.socketRooms requestId))
          userRooms := fupd s.userRooms uid (some (setAdd requestId rooms))
          roomUsers := fupd s.roomUsers requestId
            (some (setAdd uid ((s.roomUsers requestId).getD []))) },
       ((setAdd sock (s.socketRooms requestId)).filter (fun k => k ≠ sock)).map
         (fun k => (k, Out.userJoined requestId uid now))) := by
  simp [joinRoomStep, hdb, hauth, hur]

theorem presenceInv_joinRoomStep (db : RoomId → Option HelpRequest) (s : GState)
    (sock : SocketId) (requestId : RoomId) (uid : UserId) (now : Nat)
    (h : presenceInv s) : presenceInv (joinRoomStep db s sock requestId uid now).1 := by
  obtain ⟨h1, h2⟩ := h
  cases hdb : db requestId with
  | none =>
    rw [joinRoomStep_not_found db s sock requestId uid now hdb]
    exact ⟨h1, h2⟩
  | some req =>
    by_cases hauth : req.requester = uid ∨ req.helper = some uid
    · cases hur : s.userRooms uid with
      | none =>
        rw [joinRoomStep_no_entry db s sock requestId uid now req hdb hauth hur]
        exact ⟨h1, h2⟩
      | some rooms =>
        rw [joinRoomStep_success db s sock requestId uid now req rooms hdb hauth hur]
        constructor
        · intro u r
          simp only [fupd_apply]
          by_cases hu : u = uid <;> by_cases hr : r = requestId
          · subst hu; subst hr
            simp [mem_setAdd]
          · subst hu
            have hold := h1 u r
            rw [hur] at hold
            simp only [memOpt_some] at hold
            simpa [hr, mem_setAdd] using hold
          · subst hr
            cases hru : s.roomUsers r with
            | none =>
              have hold := h1 u r
              rw [hru] at hold
              simpa [hu, hru, mem_setAdd] using hold
            | some l =>
              have hold := h1 u r
              rw [hru] at hold
              simpa [hu, hru, mem_setAdd] using hold
          · simp only [if_neg hu, if_neg hr]
            exact h1 u r
        · intro r
          simp only [fupd_apply]
          by_cases hr : r = requestId
          · simp [hr, setAdd_ne_nil]
          · simp only [if_neg hr]
            exact h2 r
    · rw [joinRoomStep_unauthorized db s sock requestId uid now req hdb hauth]
      exact ⟨h1, h2⟩

theorem leaveRoom_userRooms_mem (s : GState) (sock : SocketId) (requestId : RoomId)
    (uid : UserId) (now : Nat) (u : UserId) (r : RoomId) :
    memOpt r ((leaveRoomStep s sock requestId uid now).1.userRooms u) ↔
      (memOpt r (s.userRooms u) ∧ ¬ (u = uid ∧ r = requestId)) := by
  simp only [leaveRoomStep]
  by_cases hu : u = uid
  · subst hu
    cases hur : s.userRooms u with
    | none => simp [hur]
    | some rooms => simp [hur, mem_setDel]
  · cases hur : s.userRooms uid with
    | none => simp [hur, hu]
    | some rooms => simp [hur, hu]

theorem leaveRoom_roomUsers_mem (s : GState) (sock : SocketId) (requestId : RoomId)
    (uid : UserId) (now : Nat) (u : UserId) (r : RoomId) :
    memOpt u ((leaveRoomStep s sock requestId uid now).1.roomUsers r) ↔
      (memOpt u (s.roomUsers r) ∧ ¬ (u = uid ∧ r = requestId)) := by
  simp only [leaveRoomStep]
  by_cases hr : r = requestId
  · subst hr
    cases hru : s.roomUsers r with
    | none => simp [hru]
    | some us =>
      by_cases hempty : setDel uid us = []
      · have hnm : ¬ (u ∈ us ∧ ¬ u = uid) := by
          rintro ⟨hin, hne⟩
          have hin' : u ∈ setDel uid us := mem_setDel.mpr ⟨hin, hne⟩
          rw [hempty] at hin'
          exact absurd hin' (List.not_mem_nil u)
        simp [hru, hempty, hnm]
      · simp [hru, hempty, mem_setDel]
  · cases hru : s.roomUsers requestId with
    | none => simp [hru, hr]
    | some us => simp [hru, hr]

theorem leaveRoom_roomUsers_ne_empty (s : GState) (sock : SocketId) (requestId : RoomId)
    (uid : UserId) (now : Nat) (h2 : ∀ r, s.roomUsers r ≠ some []) (r : RoomId) :
    (leaveRoomStep s sock requestId uid now).1.roomUsers r ≠ some [] := by
  simp only [leaveRoomStep]
  by_cases hr : r = requestId
  · subst hr
    cases hru : s.roomUsers r with
    | none => simp [hru]
    | some us =>
      simp only [hru, fupd_apply, if_pos rfl]
      by_cases hempty : setDel uid us = [] <;> simp [hempty]
  · cases hru : s.roomUsers requestId with
    | none => simpa [hr] using h2 r
    | some us => simpa [fupd_apply, hr] using h2 r

theorem presenceInv_leaveRoomStep (s : GState) (sock : SocketId) (requestId : RoomId)
    (uid : UserId) (now : Nat) (h : presenceInv s) :
    presenceInv (leaveRoomStep s sock requestId uid now).1 := by
  obtain ⟨h1, h2⟩ := h
  constructor
  · intro u r
    rw [leaveRoom_userRooms_mem, leaveRoom_roomUsers_mem, h1 u r]
  · exact leaveRoom_roomUsers_ne_empty s sock requestId uid now h2

theorem disconnect_userRooms_mem (s : GState) (sock : SocketId) (uid : UserId)
    (now : Nat) (u : UserId) (r : RoomId) :
    memOpt r ((disconnectStep s sock uid now).1.userRooms u) ↔
      (memOpt r (s.userRooms u) ∧ u ≠ uid) := by
  simp only [disconnectStep]
  cases hur : s.userRooms uid with
  | none =>
    by_cases hu : u = uid
    · subst hu; simp [hur]
    · simp [hu]
  | some rooms =>
    by_cases hu : u = uid
    · subst hu; simp [fupd_apply, hur]
    · simp [fupd_apply, hu]

theorem disconnect_roomUsers_mem (s : GState) (sock : SocketId) (uid : UserId)
    (now : Nat) (u : UserId) (r : RoomId)
    (h1 : ∀ u' r', memOpt r' (s.userRooms u') ↔ memOpt u' (s.roomUsers r')) :
    memOpt u ((disconnectStep s sock uid now).1.roomUsers r) ↔
      (memOpt u (s.roomUsers r) ∧ u ≠ uid) := by
  simp only [disconnectStep]
  cases hur : s.userRooms uid with
  | none =>
    by_cases hu : u = uid
    · subst hu
      constructor
      · intro hm
        have hm' := (h1 u r).mpr hm
        rw [hur] at hm'
        exact absurd hm' (memOpt_none r)
      · rintro ⟨-, hne⟩
        exact absurd rfl hne
    · simp [hu]
  | some rooms =>
    by_cases hrm : r ∈ rooms
    · simp only [if_pos hrm]
      cases hru : s.roomUsers r with
      | none => simp
      | some us =>
        by_cases hempty : setDel uid us = []
        · have hnm : ¬ (u ∈ us ∧ ¬ u = uid) := by
            rintro ⟨hin, hne⟩
            have hin' : u ∈ setDel uid us := mem_setDel.mpr ⟨hin, hne⟩
            rw [hempty] at hin'
            exact absurd hin' (List.not_mem_nil u)
          simp [hempty, hnm]
        · simp [hempty, mem_setDel]
    · simp only [if_neg hrm]
      by_cases hu : u = uid
      · subst hu
        constructor
        · intro hm
          have hm' := (h1 u r).mpr hm
          rw [hur] at hm'
          exact absurd hm' hrm
        · rintro ⟨-, hne⟩
          exact absurd rfl hne
      · simp [hu]

theorem disconnect_roomUsers_ne_empty (s : GState) (sock : SocketId) (uid : UserId)
    (now : Nat) (h2 : ∀ r, s.roomUsers r ≠ some []) (r : RoomId) :
    (disconnectStep s sock uid now).1.roomUsers r ≠ some [] := by
  simp only [disconnectStep]
  cases hur : s.userRooms uid with
  | none => exact h2 r
  | some rooms =>
    by_cases hrm : r ∈ rooms
    · simp only [if_pos hrm]
      cases hru : s.roomUsers r with
      | none => simp
      | some us =>
        by_cases hempty : setDel uid us = [] <;> simp [hempty]
    · simpa [hrm] using h2 r

theorem presenceInv_disconnectStep (s : GState) (sock : SocketId) (uid : UserId)
    (now : Nat) (h : presenceInv s) :
    presenceInv (disconnectStep s sock uid now).1 := by
  obtain ⟨h1, h2⟩ := h
  constructor
  · intro u r
    rw [disconnect_userRooms_mem, disconnect_roomUsers_mem s sock uid now u r h1, h1 u r]
  · exact disconnect_roomUsers_ne_empty s sock uid now h2

theorem presenceInv_sendMessageStep (users : UserId → Option User) (s : GState)
    (sock : SocketId) (senderId : UserId) (requestId : RoomId) (content : String)
    (mt : Option String) (fn : Option String) (fs : Option Nat) (fail : Bool)
    (now : Nat) (h : presenceInv s) :
    presenceInv (sendMessageStep users s sock senderId requestId content mt fn fs fail now).1 := by
  refine presenceInv_congr ?_ ?_ h <;>
  · unfold sendMessageStep
    cases users senderId with
    | none => rfl
    | some u => cases fail <;> rfl

theorem presenceInv_gstep (db : RoomId → Option HelpRequest) (users : UserId → Option User)
    (now : Nat) (s : GState) (e : GEvent) (h : presenceInv s) :
    presenceInv (gstep db users now s e).1 := by
  cases e with
  | connect sock uid => exact presenceInv_onConnect s sock uid h
  | joinRoom sock requestId uid => exact presenceInv_joinRoomStep db s sock requestId uid now h
  | leaveRoom sock requestId uid => exact presenceInv_leaveRoomStep s sock requestId uid now h
  | sendMessage sock sockUid requestId content mt fn fs fail =>
    exact presenceInv_sendMessageStep users s sock sockUid requestId content mt fn fs fail now h
  | typing sock requestId uid userName isTyping => exact h
  | disconnect sock sockUid => exact presenceInv_disconnectStep s sock sockUid now h

theorem presenceInv_grunFrom (db : RoomId → Option HelpRequest) (users : UserId → Option User)
    (es : List GEvent) :
    ∀ (now : Nat) (s : GState), presenceInv s → presenceInv (grunFrom db users now s es) := by
  induction es with
  | nil => intro now s h; exact h
  | cons e es ih =>
    intro now s h
    exact ih _ _ (presenceInv_gstep db users now s e h)

/-! ## Output-shape and message-store lemmas -/

theorem disconnectStep_joined (s : GState) (sock : SocketId) (uid : UserId) (now : Nat)
    (rooms : List RoomId) (hur : s.userRooms uid = some rooms) :
    disconnectStep s sock uid now =
      ({ s with
          connectedUsers := fupd s.connectedUsers uid none
          userRooms := fupd s.userRooms uid none
          roomUsers := fun r =>
            if r ∈ rooms then
              match s.roomUsers r with
              | none => none
              | some us => if setDel uid us = [] then none else some (setDel uid us)
            else s.roomUsers r
          socketRooms := fun r => setDel sock (s.socketRooms r) },
       rooms.flatMap (fun r =>
         ((s.socketRooms r).filter (fun k => k ≠ sock)).map
           (fun k => (k, Out.userLeft r uid now)))) := by
  simp [disconnectStep, hur]

theorem sendMessageStep_success (users : UserId → Option User) (s : GState)
    (sock : SocketId) (senderId : UserId) (requestId : RoomId) (content : String)
    (mt : Option String) (fn : Option String) (fs : Option Nat) (now : Nat)
    (u : User) (hu : users senderId = some u) :
    sendMessageStep users s sock senderId requestId content mt fn fs false now =
      ({ s with messages :=
          s.messages ++ [savedRowOf s senderId requestId content mt fn fs now] },
       (s.socketRooms requestId).map
         (fun k => (k, Out.message (payloadOf u s senderId requestId content mt fn fs now))) ++
       ((s.roomUsers requestId).getD []).filterMap (fun v =>
         if v ≠ senderId then
           match s.connectedUsers v with
           | some ks =>
             some (ks, Out.notification requestId ("New message from " ++ u.name) u.name now)
           | none => none
         else none)) := by
  simp [sendMessageStep, hu]

theorem mem_notifs_shape {l : List UserId} {senderId : UserId}
    {cu : UserId → Option SocketId} {requestId : RoomId} {text sname : String}
    {now : Nat} {x : SocketId × Out}
    (hx : x ∈ l.filterMap (fun v =>
      if v ≠ senderId then
        match cu v with
        | some ks => some (ks, Out.notification requestId text sname now)
        | none => none
      else none)) :
    x.2 = Out.notification requestId text sname now := by
  simp only [List.mem_filterMap] at hx
  obtain ⟨v, -, hv⟩ := hx
  split at hv
  · split at hv
    · cases hv
      rfl
    · exact Option.noConfusion hv
  · exact Option.noConfusion hv

theorem joinRoomStep_out (db : RoomId → Option HelpRequest) (s : GState)
    (sock : SocketId) (requestId : RoomId) (uid : UserId) (now : Nat)
    (k : SocketId) (o : Out)
    (h : (k, o) ∈ (joinRoomStep db s sock requestId uid now).2) :
    o = Out.userJoined requestId uid now := by
  cases hdb : db requestId with
  | none =>
    rw [joinRoomStep_not_found db s sock requestId uid now hdb] at h
    simp at h
  | some req =>
    by_cases hauth : req.requester = uid ∨ req.helper = some uid
    · cases hur : s.userRooms uid with
      | none =>
        rw [joinRoomStep_no_entry db s sock requestId uid now req hdb hauth hur] at h
        simp at h
      | some rooms =>
        rw [joinRoomStep_success db s sock requestId uid now req rooms hdb hauth hur] at h
        simp only [List.mem_map] at h
        obtain ⟨a, -, ha⟩ := h
        cases ha
        rfl
    · rw [joinRoomStep_unauthorized db s sock requestId uid now req hdb hauth] at h
      simp at h

theorem joinRoomStep_messages (db : RoomId → Option HelpRequest) (s : GState)
    (sock : SocketId) (requestId : RoomId) (uid : UserId) (now : Nat) :
    (joinRoomStep db s sock requestId uid now).1.messages = s.messages := by
  cases hdb : db requestId with
  | none => rw [joinRoomStep_not_found db s sock requestId uid now hdb]
  | some req =>
    by_cases hauth : req.requester = uid ∨ req.helper = some uid
    · cases hur : s.userRooms uid with
      | none => rw [joinRoomStep_no_entry db s sock requestId uid now req hdb hauth hur]
      | some rooms =>
        rw [joinRoomStep_success db s sock requestId uid now req rooms hdb hauth hur]
    · rw [joinRoomStep_unauthorized db s sock requestId uid now req hdb hauth]

theorem disconnectStep_messages (s : GState) (sock : SocketId) (uid : UserId) (now : Nat) :
    (disconnectStep s sock uid now).1.messages = s.messages := by
  unfold disconnectStep
  cases hur : s.userRooms uid <;> simp

theorem gstep_message_out_id (db : RoomId → Option HelpRequest)
    (users : UserId → Option User) (now : Nat) (s : GState) (e : GEvent)
    (k : SocketId) (p : MsgPayload)
    (h : (k, Out.message p) ∈ (gstep db users now s e).2) :
    p.id = s.messages.length := by
  cases e with
  | connect sock uid => simp [gstep] at h
  | joinRoom sock requestId uid =>
    have hshape := joinRoomStep_out db s sock requestId uid now k (Out.message p)
      (by simpa [gstep] using h)
    exact absurd hshape (by simp)
  | leaveRoom sock requestId uid =>
    simp only [gstep] at h
    unfold leaveRoomStep at h
    simp only [List.mem_map] at h
    obtain ⟨a, -, ha⟩ := h
    simp at ha
  | typing sock requestId uid userName isTyping =>
    simp only [gstep] at h
    unfold typingStep at h
    simp only [List.mem_map] at h
    obtain ⟨a, -, ha⟩ := h
    simp at ha
  | disconnect sock sockUid =>
    simp only [gstep] at h
    cases hur : s.userRooms sockUid with
    | none =>
      unfold disconnectStep at h
      simp [hur] at h
    | some rooms =>
      rw [disconnectStep_joined s sock sockUid now rooms hur] at h
      simp only [List.mem_flatMap, List.mem_map] at h
      obtain ⟨r, -, a, -, ha⟩ := h
      simp at ha
  | sendMessage sock sockUid requestId content mt fn fs fail =>
    simp only [gstep] at h
    cases hu : users sockUid with
    | none =>
      unfold sendMessageStep at h
      simp [hu] at h
    | some u =>
      cases fail with
      | true =>
        unfold sendMessageStep at h
        simp [hu] at h
      | false =>
        rw [sendMessageStep_success users s sock sockUid requestId content mt fn fs now u hu] at h
        rcases List.mem_append.mp h with hb | hn
        · simp only [List.mem_map] at hb
          obtain ⟨a, -, ha⟩ := hb
          cases ha
          rfl
        · exact absurd (mem_notifs_shape hn) (by simp)

theorem gstep_messages_length_le (db : RoomId → Option HelpRequest)
    (users : UserId → Option User) (now : Nat) (s : GState) (e : GEvent) :
    s.messages.length ≤ (gstep db users now s e).1.messages.length := by
  cases e with
  | connect sock uid => exact Nat.le_refl _
  | joinRoom sock requestId uid =>
    exact Nat.le_of_eq (congrArg List.length (joinRoomStep_messages db s sock requestId uid now).symm)
  | leaveRoom sock requestId uid => exact Nat.le_refl _
  | typing sock requestId uid userName isTyping => exact Nat.le_refl _
  | disconnect sock sockUid =>
    exact Nat.le_of_eq (congrArg List.length (disconnectStep_messages s sock sockUid now).symm)
  | sendMessage sock sockUid requestId content mt fn fs fail =>
    simp only [gstep]
    unfold sendMessageStep
    cases hu : users sockUid with
    | none => exact Nat.le_refl _
    | some u =>
      cases fail with
      | true => simp
      | false => simp

theorem grunFrom_messages_length_le (db : RoomId → Option HelpRequest)
    (users : UserId → Option User) (es : List GEvent) :
    ∀ (now : Nat) (s : GState),
      s.messages.length ≤ (grunFrom db users now s es).messages.length := by
  induction es with
  | nil => intro now s; exact Nat.le_refl _
  | cons e es ih =>
    intro now s
    exact Nat.le_trans (gstep_messages_length_le db users now s e) (ih _ _)

theorem no_message_replay_of_lt (db : RoomId → Option HelpRequest)
    (users : UserId → Option User) (s' : GState) (idv : Nat)
    (hlt : idv < s'.messages.length) (n₁ n₂ : Nat) (es : List GEvent) (e : GEvent)
    (k : SocketId) (p : MsgPayload)
    (h : (k, Out.message p) ∈ (gstep db users n₂ (grunFrom db users n₁ s' es) e).2) :
    p.id ≠ idv := by
  have hid := gstep_message_out_id db users n₂ _ e k p h
  have hlen := grunFrom_messages_length_le db users es n₁ s'
  omega

/-! ## Gateway claim theorems -/

/-- C9: after any sequence of gateway events from process start — with
arbitrary client-supplied payload userIds on join/leave — the presence
maps mirror each other (u ∈ roomUsers(r) ⟺ r ∈ userRooms(u)) and
roomUsers never maps a room to an empty member set. -/
theorem c9_presence_registry_invariant (db : RoomId → Option HelpRequest)
    (users : UserId → Option User) (es : List GEvent) :
    presenceInv (grun db users es) :=
  presenceInv_grunFrom db users es 0 initState presenceInv_initState

/-- C5: disconnecting a user u with joined-room set `rooms` removes u's
entry from the connection registry, clears u's joined-room set, removes
u from the member set of every room in `rooms` (deleting a room entry
whose member set becomes empty), and emits a user_left_room event
carrying requestId, userId and timestamp exactly to the remaining
sockets of each such room (the room's connection group minus the
disconnecting socket). -/
theorem c5_disconnect_cleanup (s : GState) (sock : SocketId) (uid : UserId) (now : Nat)
    (rooms : List RoomId) (hconn : s.userRooms uid = some rooms) :
    (disconnectStep s sock uid now).1.connectedUsers uid = none ∧
    (disconnectStep s sock uid now).1.userRooms uid = none ∧
    (∀ r, r ∈ rooms → ¬ memOpt uid ((disconnectStep s sock uid now).1.roomUsers r)) ∧
    (∀ r, r ∈ rooms → setDel uid ((s.roomUsers r).getD []) = [] →
      (disconnectStep s sock uid now).1.roomUsers r = none) ∧
    (∀ r k, (k, Out.userLeft r uid now) ∈ (disconnectStep s sock uid now).2 ↔
      (r ∈ rooms ∧ k ∈ s.socketRooms r ∧ k ≠ sock)) := by
  rw [disconnectStep_joined s sock uid now rooms hconn]
  refine ⟨by simp, by simp, ?_, ?_, ?_⟩
  · intro r hr
    simp only [if_pos hr]
    cases hru : s.roomUsers r with
    | none => simp
    | some us =>
      by_cases hempty : setDel uid us = [] <;> simp [hempty, mem_setDel]
  · intro r hr hdel
    simp only [if_pos hr]
    cases hru : s.roomUsers r with
    | none => rfl
    | some us =>
      rw [hru] at hdel
      simp only [Option.getD_some] at hdel
      simp [hdel]
  · intro r k
    simp only [List.mem_flatMap, List.mem_map, List.mem_filter]
    constructor
    · rintro ⟨a, ha, b, hb, hba⟩
      simp only [Prod.mk.injEq, Out.userLeft.injEq] at hba
      obtain ⟨hbk, har, -⟩ := hba
      subst hbk
      subst har
      simp only [decide_eq_true_eq] at hb
      exact ⟨ha, hb.1, hb.2⟩
    · rintro ⟨hr, hk, hks⟩
      exact ⟨r, hr, k, by simp [hk, hks], rfl⟩

/-- Witness for C5: socket 1 (userA) disconnecting from the two-member
room state: the registry entry and joined-room set are cleared, userA is
no longer in the member set of req1, and the user_left_room event is
delivered to socket 2 (the remaining member) and not to socket 1. -/
theorem c5_disconnect_cleanup_witness :
    (disconnectStep sBoth 1 "userA" 7).1.connectedUsers "userA" = none ∧
    (disconnectStep sBoth 1 "userA" 7).1.userRooms "userA" = none ∧
    ¬ memOpt "userA" ((disconnectStep sBoth 1 "userA" 7).1.roomUsers "req1") ∧
    ((2, Out.userLeft "req1" "userA" 7) ∈ (disconnectStep sBoth 1 "userA" 7).2 ↔
      ("req1" ∈ ["req1"] ∧ 2 ∈ sBoth.socketRooms "req1" ∧ (2 : SocketId) ≠ 1)) ∧
    ((1, Out.userLeft "req1" "userA" 7) ∈ (disconnectStep sBoth 1 "userA" 7).2 ↔
      ("req1" ∈ ["req1"] ∧ 1 ∈ sBoth.socketRooms "req1" ∧ (1 : SocketId) ≠ 1)) := by
  have h := c5_disconnect_cleanup sBoth 1 "userA" 7 ["req1"] (by decide)
  exact ⟨h.1, h.2.1, h.2.2.1 "req1" (by decide), h.2.2.2.2 "req1" 2, h.2.2.2.2 "req1" 1⟩

/-- C6 (counterexample): the claim's success clause fails.  Request req1
exists in the store and the supplied userId "userA" is its requester, so
neither of the claim's failure conditions holds; yet because "userA"
(who never connected) has no userRooms entry, the JS handler throws a
TypeError after `socket.join`, caught and logged: both presence maps are
left unchanged and nothing is emitted, while the room's connection group
did gain the joining socket 7 — not the behaviour the claim's success
clause describes. -/
theorem c6_join_room_crash_counterexample :
    (db1 "req1").isSome ∧
    reqInProgressAB.requester = "userA" ∧
    sMallory.userRooms "userA" = none ∧
    (joinRoomStep db1 sMallory 7 "req1" "userA" 1).2 = [] ∧
    (joinRoomStep db1 sMallory 7 "req1" "userA" 1).1.roomUsers "req1" = none ∧
    (joinRoomStep db1 sMallory 7 "req1" "userA" 1).1.userRooms "userA" = none ∧
    (joinRoomStep db1 sMallory 7 "req1" "userA" 1).1.socketRooms "req1" = [7] := by
  decide

/-- C6 (amended): join_room fails silently — no output at all, both
presence maps (and the connection group) untouched — when the request
does not exist or the supplied user is neither requester nor assigned
helper.  When the request exists and the user is authorized there are
two cases: if the supplied user has no userRooms entry the handler
crashes silently after socket.join (connection added to the room's
group, presence maps unchanged, nothing emitted); otherwise it adds the
connection to the room's group, the room to the user's room set, the
user to the room's member set, and emits user_joined (requestId, userId,
timestamp) exactly to the other sockets of the room's group. -/
theorem c6_join_room_characterization (db : RoomId → Option HelpRequest) (s : GState)
    (sock : SocketId) (requestId : RoomId) (uid : UserId) (now : Nat) :
    (db requestId = none → joinRoomStep db s sock requestId uid now = (s, [])) ∧
    (∀ req, db requestId = some req →
      ¬ (req.requester = uid ∨ req.helper = some uid) →
      joinRoomStep db s sock requestId uid now = (s, [])) ∧
    (∀ req, db requestId = some req →
      (req.requester = uid ∨ req.helper = some uid) →
      s.userRooms uid = none →
      (joinRoomStep db s sock requestId uid now).1.userRooms = s.userRooms ∧
      (joinRoomStep db s sock requestId uid now).1.roomUsers = s.roomUsers ∧
      (joinRoomStep db s sock requestId uid now).1.socketRooms requestId =
        setAdd sock (s.socketRooms requestId) ∧
      (joinRoomStep db s sock requestId uid now).2 = []) ∧
    (∀ req rooms, db requestId = some req →
      (req.requester = uid ∨ req.helper = some uid) →
      s.userRooms uid = some rooms →
      (joinRoomStep db s sock requestId uid now).1.socketRooms requestId =
        setAdd sock (s.socketRooms requestId) ∧
      (joinRoomStep db s sock requestId uid now).1.userRooms uid =
        some (setAdd requestId rooms) ∧
      (joinRoomStep db s sock requestId uid now).1.roomUsers requestId =
        some (setAdd uid ((s.roomUsers requestId).getD [])) ∧
      (∀ k o, (k, o) ∈ (joinRoomStep db s sock requestId uid now).2 ↔
        (k ∈ setAdd sock (s.socketRooms requestId) ∧ k ≠ sock ∧
          o = Out.userJoined requestId uid now))) := by
  refine ⟨?_, ?_, ?_, ?_⟩
  · intro hdb
    exact joinRoomStep_not_found db s sock requestId uid now hdb
  · intro req hdb hauth
    exact joinRoomStep_unauthorized db s sock requestId uid now req hdb hauth
  · intro req hdb hauth hur
    rw [joinRoomStep_no_entry db s sock requestId uid now req hdb hauth hur]
    exact ⟨rfl, rfl, by simp, rfl⟩
  · intro req rooms hdb hauth hur
    rw [joinRoomStep_success db s sock requestId uid now req rooms hdb hauth hur]
    refine ⟨by simp, by simp, by simp, ?_⟩
    intro k o
    simp only [List.mem_map, List.mem_filter]
    constructor
    · rintro ⟨a, ha, hao⟩
      simp only [Prod.mk.injEq] at hao
      obtain ⟨hak, hao⟩ := hao
      subst hak
      simp only [decide_eq_true_eq] at ha
      exact ⟨ha.1, ha.2, hao.symm⟩
    · rintro ⟨hk, hks, ho⟩
      exact ⟨k, by simp [hk, hks], by simp [ho]⟩

/-- Witness for C6: socket 2 (userB, the assigned helper, connected but
not yet joined) joining req1 from the state where userA already joined:
the room is added to userB's room set, userB to the room's member set,
and the user_joined event is delivered to socket 1 and not to socket 2. -/
theorem c6_join_room_characterization_witness :
    (joinRoomStep db1 sW2 2 "req1" "userB" 5).1.userRooms "userB" =
      some (setAdd "req1" []) ∧
    (joinRoomStep db1 sW2 2 "req1" "userB" 5).1.roomUsers "req1" =
      some (setAdd "userB" ((sW2.roomUsers "req1").getD [])) ∧
    ((1, Out.userJoined "req1" "userB" 5) ∈ (joinRoomStep db1 sW2 2 "req1" "userB" 5).2 ↔
      ((1 : SocketId) ∈ setAdd 2 (sW2.socketRooms "req1") ∧ (1 : SocketId) ≠ 2 ∧
        Out.userJoined "req1" "userB" 5 = Out.userJoined "req1" "userB" 5)) ∧
    ((2, Out.userJoined "req1" "userB" 5) ∈ (joinRoomStep db1 sW2 2 "req1" "userB" 5).2 ↔
      ((2 : SocketId) ∈ setAdd 2 (sW2.socketRooms "req1") ∧ (2 : SocketId) ≠ 2 ∧
        Out.userJoined "req1" "userB" 5 = Out.userJoined "req1" "userB" 5)) := by
  have h := (c6_join_room_characterization db1 sW2 2 "req1" "userB" 5).2.2.2
    reqInProgressAB [] (by decide) (by decide) (by decide)
  exact ⟨h.2.1, h.2.2.1, h.2.2.2 1 (Out.userJoined "req1" "userB" 5),
    h.2.2.2 2 (Out.userJoined "req1" "userB" 5)⟩

/-- C7: when the database write of send_message fails (and the sender's
user record exists, so the save is reached), the handler leaves the
whole gateway state — including the message store — unchanged and emits
exactly one event: an "error" event to the originating socket.  No
message broadcast and no notification reaches anyone else. -/
theorem c7_send_message_db_failure (users : UserId → Option User) (s : GState)
    (sock : SocketId) (senderId : UserId) (requestId : RoomId) (content : String)
    (mt : Option String) (fn : Option String) (fs : Option Nat) (now : Nat)
    (u : User) (hu : users senderId = some u) :
    sendMessageStep users s sock senderId requestId content mt fn fs true now =
      (s, [(sock, Out.errorMsg "Failed to send message")]) := by
  simp [sendMessageStep, hu]

/-- Witness for C7: a failing save on a send from socket 1 (userA) in the
two-member room state keeps the state and emits only the error to
socket 1. -/
theorem c7_send_message_db_failure_witness :
    sendMessageStep users1 sBoth 1 "userA" "req1" "hi" none none none true 9 =
      (sBoth, [(1, Out.errorMsg "Failed to send message")]) :=
  c7_send_message_db_failure users1 sBoth 1 "userA" "req1" "hi" none none none 9
    uAlice (by decide)

/-- C1: a successful send_message appends exactly one Message row (the
given request, sender, content, messageType with default, file metadata,
isRead=false) to the store; the fully-formed payload carrying the
generated id is delivered exactly to the sockets of the room's
connection group at broadcast time (the sender's own socket is not
excluded); every message payload emitted by the step is that payload;
and no step of any later event sequence ever emits a message payload
with this id again (late joiners cannot receive it). -/
theorem c1_send_message_persist_and_broadcast (db : RoomId → Option HelpRequest)
    (users : UserId → Option User) (s : GState) (sock : SocketId) (senderId : UserId)
    (requestId : RoomId) (content : String) (mt : Option String) (fn : Option String)
    (fs : Option Nat) (now : Nat) (u : User) (hu : users senderId = some u) :
    (sendMessageStep users s sock senderId requestId content mt fn fs false now).1.messages =
      s.messages ++ [savedRowOf s senderId requestId content mt fn fs now] ∧
    (savedRowOf s senderId requestId content mt fn fs now).isRead = false ∧
    (∀ k : SocketId,
      (k, Out.message (payloadOf u s senderId requestId content mt fn fs now)) ∈
        (sendMessageStep users s sock senderId requestId content mt fn fs false now).2 ↔
      k ∈ s.socketRooms requestId) ∧
    (∀ (k : SocketId) (p : MsgPayload),
      (k, Out.message p) ∈
        (sendMessageStep users s sock senderId requestId content mt fn fs false now).2 →
      p = payloadOf u s senderId requestId content mt fn fs now) ∧
    (payloadOf u s senderId requestId content mt fn fs now).id = s.messages.length ∧
    (∀ (n₁ n₂ : Nat) (es : List GEvent) (e : GEvent) (k : SocketId) (p : MsgPayload),
      (k, Out.message p) ∈
        (gstep db users n₂
          (grunFrom db users n₁
            (sendMessageStep users s sock senderId requestId content mt fn fs false now).1
            es) e).2 →
      p.id ≠ s.messages.length) := by
  have heq := sendMessageStep_success users s sock senderId requestId content mt fn fs now u hu
  rw [heq]
  refine ⟨rfl, rfl, ?_, ?_, rfl, ?_⟩
  · intro k
    constructor
    · intro hk
      rcases List.mem_append.mp hk with hb | hn
      · simp only [List.mem_map] at hb
        obtain ⟨a, ha, heq2⟩ := hb
        simp only [Prod.mk.injEq] at heq2
        rw [← heq2.1]
        exact ha
      · exact absurd (mem_notifs_shape hn) (by simp)
    · intro hk
      exact List.mem_append.mpr (Or.inl (List.mem_map.mpr ⟨k, hk, rfl⟩))
  · intro k p hk
    rcases List.mem_append.mp hk with hb | hn
    · simp only [List.mem_map] at hb
      obtain ⟨a, -, heq2⟩ := hb
      simp only [Prod.mk.injEq, Out.message.injEq] at heq2
      exact heq2.2.symm
    · exact absurd (mem_notifs_shape hn) (by simp)
  · intro n₁ n₂ es e k p hk
    exact no_message_replay_of_lt db users _ _ (by simp) n₁ n₂ es e k p hk

/-- Witness for C1: a send from socket 1 (userA) in the two-member room
state appends the row and the broadcast reaches both sockets of the
room's group, including the sender's own socket 1. -/
theorem c1_send_message_persist_and_broadcast_witness :
    (sendMessageStep users1 sBoth 1 "userA" "req1" "hello" none none none false 9).1.messages =
      sBoth.messages ++ [savedRowOf sBoth "userA" "req1" "hello" none none none 9] ∧
    ((1, Out.message (payloadOf uAlice sBoth "userA" "req1" "hello" none none none 9)) ∈
        (sendMessageStep users1 sBoth 1 "userA" "req1" "hello" none none none false 9).2 ↔
      (1 : SocketId) ∈ sBoth.socketRooms "req1") ∧
    ((2, Out.message (payloadOf uAlice sBoth "userA" "req1" "hello" none none none 9)) ∈
        (sendMessageStep users1 sBoth 1 "userA" "req1" "hello" none none none false 9).2 ↔
      (2 : SocketId) ∈ sBoth.socketRooms "req1") := by
  have h := c1_send_message_persist_and_broadcast db1 users1 sBoth 1 "userA" "req1"
    "hello" none none none 9 uAlice (by decide)
  exact ⟨h.1, h.2.2.1 1, h.2.2.1 2⟩

/-- C10: userA connects on socket 1 and joins the chat room, then opens a
second connection on socket 2 (overwriting the registry entry).  When
the stale socket 1 later disconnects, the handler unconditionally
deletes userA's connectedUsers entry and entire userRooms set without
checking that the stored socket is the disconnecting one: the still-live
socket 2 ends up unregistered and userA is removed from the room's
member set (the room entry is deleted) despite being connected. -/
theorem c10_stale_disconnect_unregisters_live_connection :
    sTwoConn.connectedUsers "userA" = some 2 ∧
    memOpt "userA" (sTwoConn.roomUsers "req1") ∧
    (disconnectStep sTwoConn 1 "userA" 3).1.connectedUsers "userA" = none ∧
    (disconnectStep sTwoConn 1 "userA" 3).1.userRooms "userA" = none ∧
    (disconnectStep sTwoConn 1 "userA" 3).1.roomUsers "req1" = none := by
  decide

end SkillWave
